import Mathlib

/-!
Verification of the configuration-resolution core of the
`terraform-provider-cisco-sna` repository
(`internal/provider/provider.go`, function `Configure`).

The embedding models:
- a Terraform tri-state string attribute (`types.String`): null, unknown,
  or a known value;
- the provider model struct `snaProviderModel` with its three fields;
- diagnostics (`path`, severity, summary, detail) and the
  `Diagnostics.HasError` scan;
- the environment as a snapshot function `String → String`
  (`os.Getenv` returns the empty string for unset variables);
- the client factory `sna.NewClient` as an explicit function argument
  returning `Except String C`, so construction failure is data;
- `Configure` itself as a pure function from the initial diagnostics of
  `req.Config.Get`, the decoded model, the environment snapshot, and the
  factory, to the final response (diagnostic list plus the
  `DataSourceData` / `ResourceData` slots).
-/

namespace SnaProvider

/-- Tri-state value of a Terraform `types.String` attribute:
null (absent), unknown (value pending upstream resolution), or a known
string value. -/
inductive TriState where
  | absent
  | unresolved
  | present (value : String)
deriving DecidableEq, Repr

/-- Model of `types.String.IsUnknown()`. -/
def TriState.isUnknown : TriState → Bool
  | .unresolved => true
  | _ => false

/-- Model of `types.String.IsNull()`. -/
def TriState.isNull : TriState → Bool
  | .absent => true
  | _ => false

/-- Model of `types.String.ValueString()`: the known value, or the empty
string for a null or unknown attribute. -/
def TriState.valueString : TriState → String
  | .present v => v
  | _ => ""

/-- Model of the Go struct `snaProviderModel` that `req.Config.Get`
decodes into. -/
structure snaProviderModel where
  host : TriState
  username : TriState
  password : TriState
deriving DecidableEq, Repr

/-- Diagnostic severity. -/
inductive Severity where
  | error
  | warning
deriving DecidableEq, Repr

/-- One diagnostic entry. `path` is `some attr` for
`AddAttributeError(path.Root(attr), ...)` and `none` for `AddError`. -/
structure Diagnostic where
  path : Option String
  severity : Severity
  summary : String
  detail : String
deriving DecidableEq, Repr

/-- Model of `diag.Diagnostics.HasError()`: true iff some entry has
severity `Error`. -/
def hasError (ds : List Diagnostic) : Bool :=
  ds.any fun d => d.severity = Severity.error

/-- Diagnostic appended at provider.go:87 when `config.Host.IsUnknown()`. -/
def unknownHostDiag : Diagnostic :=
  { path := some "host"
    severity := .error
    summary := "Unknown Secure Network Analytics API Host"
    detail := "The provider cannot create the Secure Network Analytics API client as there is an unknown configuration value for the Secure Network Analytics API host. Either target apply the source of the value first, set the value statically in the configuration, or use the SNA_HOST environment variable." }

/-- Diagnostic appended at provider.go:96 when `config.Username.IsUnknown()`. -/
def unknownUsernameDiag : Diagnostic :=
  { path := some "username"
    severity := .error
    summary := "Unknown Secure Network Analytics API Username"
    detail := "The provider cannot create the Secure Network Analytics API client as there is an unknown configuration value for the Secure Network Analytics API username. Either target apply the source of the value first, set the value statically in the configuration, or use the SNA_USERNAME environment variable." }

/-- Diagnostic appended at provider.go:105 when `config.Password.IsUnknown()`. -/
def unknownPasswordDiag : Diagnostic :=
  { path := some "password"
    severity := .error
    summary := "Unknown Secure Network Analytics API Password"
    detail := "The provider cannot create the Secure Network Analytics API client as there is an unknown configuration value for the Secure Network Analytics API password. Either target apply the source of the value first, set the value statically in the configuration, or use the SNA_PASSWORD environment variable." }

/-- Diagnostic appended at provider.go:140 when the merged host is empty. -/
def missingHostDiag : Diagnostic :=
  { path := some "host"
    severity := .error
    summary := "Missing Secure Network Analytics API Host"
    detail := "The provider cannot create the Secure Network Analytics API client as there is a missing or empty value for the Secure Network Analytics API host. Set the host value in the configuration or use the SNA_HOST environment variable. If either is already set, ensure the value is not empty." }

/-- Diagnostic appended at provider.go:150 when the merged username is empty. -/
def missingUsernameDiag : Diagnostic :=
  { path := some "username"
    severity := .error
    summary := "Missing Secure Network Analytics API Username"
    detail := "The provider cannot create the Secure Network Analytics API client as there is a missing or empty value for the Secure Network Analytics API username. Set the username value in the configuration or use the SNA_USERNAME environment variable. If either is already set, ensure the value is not empty." }

/-- Diagnostic appended at provider.go:160 when the merged password is empty. -/
def missingPasswordDiag : Diagnostic :=
  { path := some "password"
    severity := .error
    summary := "Missing Secure Network Analytics API Password"
    detail := "The provider cannot create the Secure Network Analytics API client as there is a missing or empty value for the Secure Network Analytics API password. Set the password value in the configuration or use the SNA_PASSWORD environment variable. If either is already set, ensure the value is not empty." }

/-- Diagnostic appended at provider.go:183 when `sna.NewClient` returns an
error `e` (`AddError`, so no attribute path). -/
def clientCreationDiag (e : String) : Diagnostic :=
  { path := none
    severity := .error
    summary := "Unable to Create Secure Network Analytics API Client"
    detail := "An unexpected error occurred when creating the Secure Network Analytics API client. If the error is not clear, please contact the provider developers.\n\nSecure Network Analytics Client Error: " ++ e }

/-- Diagnostics appended by the unknown-value checks of provider.go:86-111,
in source order. -/
def unknownValueDiags (config : snaProviderModel) : List Diagnostic :=
  (if config.host.isUnknown then [unknownHostDiag] else []) ++
  (if config.username.isUnknown then [unknownUsernameDiag] else []) ++
  (if config.password.isUnknown then [unknownPasswordDiag] else [])

/-- Diagnostics appended by the missing-value checks of provider.go:139-167,
in source order, on the three merged string values. -/
def missingValueDiags (host username password : String) : List Diagnostic :=
  (if host = "" then [missingHostDiag] else []) ++
  (if username = "" then [missingUsernameDiag] else []) ++
  (if password = "" then [missingPasswordDiag] else [])

/-- Merge of one attribute against its environment fallback,
provider.go:120-134: start from the environment value, override with the
configuration value when the attribute is not null. -/
def mergeField (field : TriState) (envVal : String) : String :=
  if field.isNull then envVal else field.valueString

/-- Model of `provider.ConfigureResponse`: the accumulated diagnostics and
the `DataSourceData` / `ResourceData` slots, for a client type `C`. -/
structure ConfigureResponse (C : Type) where
  diagnostics : List Diagnostic
  dataSourceData : Option C
  resourceData : Option C
deriving DecidableEq, Repr

/-- Tail of `Configure` from provider.go:136 on: the missing-value checks
and gate on the three merged values, then the `sna.NewClient` call and
either the construction-error diagnostic or the handoff of the client to
both response slots. -/
def configureResolved {C : Type} (diags : List Diagnostic)
    (host username password : String)
    (newClient : String → String → String → Except String C) :
    ConfigureResponse C :=
  let diags := diags ++ missingValueDiags host username password
  if hasError diags then ⟨diags, none, none⟩
  else
    match newClient host username password with
    | .error e => ⟨diags ++ [clientCreationDiag e], none, none⟩
    | .ok client => ⟨diags, some client, some client⟩

/-- Model of `snaProvider.Configure` (provider.go:73-198).
`getDiags` are the diagnostics returned by `req.Config.Get` and appended
at provider.go:78; `env` is the process-environment snapshot read by
`os.Getenv`; `newClient` is `sna.NewClient`. -/
def configure {C : Type} (getDiags : List Diagnostic)
    (config : snaProviderModel) (env : String → String)
    (newClient : String → String → String → Except String C) :
    ConfigureResponse C :=
  if hasError getDiags then ⟨getDiags, none, none⟩
  else
    let diags := getDiags ++ unknownValueDiags config
    if hasError diags then ⟨diags, none, none⟩
    else
      configureResolved diags
        (mergeField config.host (env "SNA_HOST"))
        (mergeField config.username (env "SNA_USERNAME"))
        (mergeField config.password (env "SNA_PASSWORD"))
        newClient

/-! Helper lemmas shared by the claim theorems. -/

theorem hasError_append (a b : List Diagnostic) :
    hasError (a ++ b) = (hasError a || hasError b) := by
  simp [hasError, List.any_append]

theorem hasError_singleton_error {d : Diagnostic}
    (hd : d.severity = Severity.error) : hasError [d] = true := by
  simp [hasError, hd]

theorem not_mem_of_hasError_eq_false {ds : List Diagnostic} {d : Diagnostic}
    (hds : hasError ds = false) (hd : d.severity = Severity.error) :
    d ∉ ds := by
  intro hmem
  have : hasError ds = true := by
    simp only [hasError, List.any_eq_true]
    exact ⟨d, hmem, by simp [hd]⟩
  rw [this] at hds
  exact Bool.noConfusion hds

theorem unknownValueDiags_eq_nil {config : snaProviderModel}
    (hh : config.host.isUnknown = false)
    (hu : config.username.isUnknown = false)
    (hp : config.password.isUnknown = false) :
    unknownValueDiags config = [] := by
  simp [unknownValueDiags, hh, hu, hp]

theorem hasError_missingValueDiags (h u p : String) :
    hasError (missingValueDiags h u p) =
      (decide (h = "") || decide (u = "") || decide (p = "")) := by
  by_cases hh : h = "" <;> by_cases hu : u = "" <;> by_cases hp : p = "" <;>
    simp [missingValueDiags, hasError, hh, hu, hp,
      missingHostDiag, missingUsernameDiag, missingPasswordDiag]

theorem configure_eq_resolved {C : Type} {getDiags : List Diagnostic}
    {config : snaProviderModel} {env : String → String}
    (newClient : String → String → String → Except String C)
    (hgd : hasError getDiags = false)
    (hh : config.host.isUnknown = false)
    (hu : config.username.isUnknown = false)
    (hp : config.password.isUnknown = false) :
    configure getDiags config env newClient =
      configureResolved getDiags
        (mergeField config.host (env "SNA_HOST"))
        (mergeField config.username (env "SNA_USERNAME"))
        (mergeField config.password (env "SNA_PASSWORD"))
        newClient := by
  simp [configure, hgd, unknownValueDiags_eq_nil hh hu hp]

theorem configureResolved_all_or_nothing {C : Type} (diags : List Diagnostic)
    (h u p : String) (newClient : String → String → String → Except String C) :
    ((configureResolved diags h u p newClient).dataSourceData.isSome = true ∧
      hasError (configureResolved diags h u p newClient).diagnostics = false) ∨
    ((configureResolved diags h u p newClient).dataSourceData = none ∧
      hasError (configureResolved diags h u p newClient).diagnostics = true) := by
  cases hm : hasError (diags ++ missingValueDiags h u p) with
  | true => right; simp [configureResolved, hm]
  | false =>
    cases hc : newClient h u p with
    | error e =>
      right
      simp [configureResolved, hm, hc, hasError_append,
        hasError_singleton_error (d := clientCreationDiag e) rfl]
    | ok c => left; simp [configureResolved, hm, hc]

theorem hasError_unknownValueDiags (config : snaProviderModel) :
    hasError (unknownValueDiags config) =
      (config.host.isUnknown || config.username.isUnknown ||
        config.password.isUnknown) := by
  cases hh : config.host.isUnknown <;> cases hu : config.username.isUnknown <;>
    cases hp : config.password.isUnknown <;>
    simp [unknownValueDiags, hasError, hh, hu, hp,
      unknownHostDiag, unknownUsernameDiag, unknownPasswordDiag]

theorem mem_unknownValueDiags {config : snaProviderModel} {d : Diagnostic}
    (hmem : d ∈ unknownValueDiags config) :
    d = unknownHostDiag ∨ d = unknownUsernameDiag ∨ d = unknownPasswordDiag := by
  simp only [unknownValueDiags, List.mem_append] at hmem
  rcases hmem with (hm | hm) | hm <;> split at hm <;> simp_all

theorem mem_missingValueDiags {h u p : String} {d : Diagnostic}
    (hmem : d ∈ missingValueDiags h u p) :
    d = missingHostDiag ∨ d = missingUsernameDiag ∨ d = missingPasswordDiag := by
  simp only [missingValueDiags, List.mem_append] at hmem
  rcases hmem with (hm | hm) | hm <;> split at hm <;> simp_all

theorem unknownHostDiag_mem_iff {config : snaProviderModel} :
    unknownHostDiag ∈ unknownValueDiags config ↔
      config.host.isUnknown = true := by
  cases hh : config.host.isUnknown <;> cases hu : config.username.isUnknown <;>
    cases hp : config.password.isUnknown <;>
    simp [unknownValueDiags, hh, hu, hp] <;> decide

theorem unknownUsernameDiag_mem_iff {config : snaProviderModel} :
    unknownUsernameDiag ∈ unknownValueDiags config ↔
      config.username.isUnknown = true := by
  cases hh : config.host.isUnknown <;> cases hu : config.username.isUnknown <;>
    cases hp : config.password.isUnknown <;>
    simp [unknownValueDiags, hh, hu, hp] <;> decide

theorem unknownPasswordDiag_mem_iff {config : snaProviderModel} :
    unknownPasswordDiag ∈ unknownValueDiags config ↔
      config.password.isUnknown = true := by
  cases hh : config.host.isUnknown <;> cases hu : config.username.isUnknown <;>
    cases hp : config.password.isUnknown <;>
    simp [unknownValueDiags, hh, hu, hp] <;> decide

theorem missing_notMem_unknownValueDiags {config : snaProviderModel}
    {d : Diagnostic}
    (hd : d = missingHostDiag ∨ d = missingUsernameDiag ∨
      d = missingPasswordDiag) :
    d ∉ unknownValueDiags config := by
  intro hmem
  rcases mem_unknownValueDiags hmem with h1 | h1 | h1 <;>
    rcases hd with h2 | h2 | h2 <;> subst h2 <;> exact absurd h1 (by decide)

theorem configure_eq_resolved_append {C : Type} {getDiags : List Diagnostic}
    {config : snaProviderModel} {env : String → String}
    (newClient : String → String → String → Except String C)
    (hgd : hasError getDiags = false)
    (hunk : hasError (getDiags ++ unknownValueDiags config) = false) :
    configure getDiags config env newClient =
      configureResolved (getDiags ++ unknownValueDiags config)
        (mergeField config.host (env "SNA_HOST"))
        (mergeField config.username (env "SNA_USERNAME"))
        (mergeField config.password (env "SNA_PASSWORD"))
        newClient := by
  simp [configure, hgd, hunk]

theorem configureResolved_diagnostics_subset {C : Type}
    (diags : List Diagnostic) (h u p : String)
    (newClient : String → String → String → Except String C) (d : Diagnostic)
    (hmem : d ∈ (configureResolved diags h u p newClient).diagnostics) :
    d ∈ diags ∨ d ∈ missingValueDiags h u p ∨ ∃ e, d = clientCreationDiag e := by
  cases hm : hasError (diags ++ missingValueDiags h u p) with
  | true =>
    simp only [configureResolved, hm] at hmem
    simp only [if_true] at hmem
    rcases List.mem_append.mp hmem with h1 | h1
    · exact Or.inl h1
    · exact Or.inr (Or.inl h1)
  | false =>
    cases hc : newClient h u p with
    | error e =>
      simp only [configureResolved, hm, hc] at hmem
      simp only [Bool.false_eq_true, if_false] at hmem
      rcases List.mem_append.mp hmem with h1 | h1
      · rcases List.mem_append.mp h1 with h2 | h2
        · exact Or.inl h2
        · exact Or.inr (Or.inl h2)
      · exact Or.inr (Or.inr ⟨e, List.mem_singleton.mp h1⟩)
    | ok c =>
      simp only [configureResolved, hm, hc] at hmem
      simp only [Bool.false_eq_true, if_false] at hmem
      rcases List.mem_append.mp hmem with h1 | h1
      · exact Or.inl h1
      · exact Or.inr (Or.inl h1)

theorem configure_diagnostics_subset {C : Type} (getDiags : List Diagnostic)
    (config : snaProviderModel) (env : String → String)
    (newClient : String → String → String → Except String C) (d : Diagnostic)
    (hmem : d ∈ (configure getDiags config env newClient).diagnostics) :
    d ∈ getDiags ∨ d ∈ unknownValueDiags config ∨
    d ∈ missingValueDiags (mergeField config.host (env "SNA_HOST"))
        (mergeField config.username (env "SNA_USERNAME"))
        (mergeField config.password (env "SNA_PASSWORD")) ∨
    ∃ e, d = clientCreationDiag e := by
  cases hgd : hasError getDiags with
  | true =>
    left
    simpa [configure, hgd] using hmem
  | false =>
    cases hunk : hasError (getDiags ++ unknownValueDiags config) with
    | true =>
      have hd : (configure getDiags config env newClient).diagnostics =
          getDiags ++ unknownValueDiags config := by
        simp [configure, hgd, hunk]
      rw [hd] at hmem
      rcases List.mem_append.mp hmem with h1 | h1
      · exact Or.inl h1
      · exact Or.inr (Or.inl h1)
    | false =>
      rw [configure_eq_resolved_append newClient hgd hunk] at hmem
      rcases configureResolved_diagnostics_subset _ _ _ _ _ _ hmem with
        h1 | h1 | h1
      · rcases List.mem_append.mp h1 with h2 | h2
        · exact Or.inl h2
        · exact Or.inr (Or.inl h2)
      · exact Or.inr (Or.inr (Or.inl h1))
      · exact Or.inr (Or.inr (Or.inr h1))

/-- Claim C1: resolution is all-or-nothing. For every input (initial
diagnostics of the configuration read, explicit tri-state fields,
environment snapshot, client factory), `Configure` yields exactly one of
the two outcomes: a client handle is produced and the diagnostics contain
no Error, or no client handle is produced and the diagnostics contain at
least one Error. -/
theorem configure_all_or_nothing {C : Type} (getDiags : List Diagnostic)
    (config : snaProviderModel) (env : String → String)
    (newClient : String → String → String → Except String C) :
    ((configure getDiags config env newClient).dataSourceData.isSome = true ∧
      hasError (configure getDiags config env newClient).diagnostics = false) ∨
    ((configure getDiags config env newClient).dataSourceData = none ∧
      hasError (configure getDiags config env newClient).diagnostics = true) := by
  cases hgd : hasError getDiags with
  | true => right; simp [configure, hgd]
  | false =>
    cases hunk : hasError (getDiags ++ unknownValueDiags config) with
    | true => right; simp [configure, hgd, hunk]
    | false =>
      have h := configureResolved_all_or_nothing
        (getDiags ++ unknownValueDiags config)
        (mergeField config.host (env "SNA_HOST"))
        (mergeField config.username (env "SNA_USERNAME"))
        (mergeField config.password (env "SNA_PASSWORD"))
        newClient
      simpa [configure, hgd, hunk] using h

theorem configureResolved_shared {C : Type} (diags : List Diagnostic)
    (h u p : String) (newClient : String → String → String → Except String C) :
    (configureResolved diags h u p newClient).dataSourceData =
      (configureResolved diags h u p newClient).resourceData := by
  cases hm : hasError (diags ++ missingValueDiags h u p) with
  | true => simp [configureResolved, hm]
  | false =>
    cases hc : newClient h u p with
    | error e => simp [configureResolved, hm, hc]
    | ok c => simp [configureResolved, hm, hc]

/-- Claim C9: the `DataSourceData` and `ResourceData` slots of the response
always hold the same value; in particular, on every successful resolution
the identical client handle is handed to both data sources and
resources. -/
theorem configure_shared_client {C : Type} (getDiags : List Diagnostic)
    (config : snaProviderModel) (env : String → String)
    (newClient : String → String → String → Except String C) :
    (configure getDiags config env newClient).dataSourceData =
      (configure getDiags config env newClient).resourceData := by
  cases hgd : hasError getDiags with
  | true => simp [configure, hgd]
  | false =>
    cases hunk : hasError (getDiags ++ unknownValueDiags config) with
    | true => simp [configure, hgd, hunk]
    | false =>
      have h := configureResolved_shared (getDiags ++ unknownValueDiags config)
        (mergeField config.host (env "SNA_HOST"))
        (mergeField config.username (env "SNA_USERNAME"))
        (mergeField config.password (env "SNA_PASSWORD"))
        newClient
      simpa [configure, hgd, hunk] using h

/-- Claim C4: Phase 1 gate. If at least one of host, username, password is
unknown (and the configuration read itself produced no error), `Configure`
appends exactly one unknown-value Error per unknown field and stops: no
missing-value diagnostic appears, no client is produced, and the result
does not depend on the environment snapshot or the client factory. -/
theorem configure_phase1_gate {C : Type} (getDiags : List Diagnostic)
    (config : snaProviderModel) (env env2 : String → String)
    (newClient newClient2 : String → String → String → Except String C)
    (hgd : hasError getDiags = false)
    (hunk : (config.host.isUnknown || config.username.isUnknown ||
      config.password.isUnknown) = true) :
    (configure getDiags config env newClient).diagnostics =
      getDiags ++ unknownValueDiags config ∧
    missingHostDiag ∉ (configure getDiags config env newClient).diagnostics ∧
    missingUsernameDiag ∉ (configure getDiags config env newClient).diagnostics ∧
    missingPasswordDiag ∉ (configure getDiags config env newClient).diagnostics ∧
    (configure getDiags config env newClient).dataSourceData = none ∧
    (configure getDiags config env newClient).resourceData = none ∧
    configure getDiags config env2 newClient2 =
      configure getDiags config env newClient := by
  have hU : hasError (getDiags ++ unknownValueDiags config) = true := by
    rw [hasError_append, hasError_unknownValueDiags, hgd, hunk]
    rfl
  have hstop : ∀ (envA : String → String)
      (fA : String → String → String → Except String C),
      configure getDiags config envA fA =
        ⟨getDiags ++ unknownValueDiags config, none, none⟩ := by
    intro envA fA
    simp [configure, hgd, hU]
  refine ⟨?_, ?_, ?_, ?_, ?_, ?_, ?_⟩
  · rw [hstop env newClient]
  · rw [hstop env newClient]
    intro hmem
    rcases List.mem_append.mp hmem with h1 | h1
    · exact not_mem_of_hasError_eq_false hgd rfl h1
    · exact missing_notMem_unknownValueDiags (Or.inl rfl) h1
  · rw [hstop env newClient]
    intro hmem
    rcases List.mem_append.mp hmem with h1 | h1
    · exact not_mem_of_hasError_eq_false hgd rfl h1
    · exact missing_notMem_unknownValueDiags (Or.inr (Or.inl rfl)) h1
  · rw [hstop env newClient]
    intro hmem
    rcases List.mem_append.mp hmem with h1 | h1
    · exact not_mem_of_hasError_eq_false hgd rfl h1
    · exact missing_notMem_unknownValueDiags (Or.inr (Or.inr rfl)) h1
  · rw [hstop env newClient]
  · rw [hstop env newClient]
  · rw [hstop env2 newClient2, hstop env newClient]

/-- Witness for C4 at Scenario C of the spec: host unknown, username and
password present, arbitrary environment and factory. -/
theorem configure_phase1_gate_witness :
    (configure []
        ⟨TriState.unresolved, TriState.present "u", TriState.present "p"⟩
        (fun _ => "") (fun _ _ _ => Except.ok (0 : Nat))).diagnostics =
      [] ++ unknownValueDiags
        ⟨TriState.unresolved, TriState.present "u", TriState.present "p"⟩ ∧
    missingHostDiag ∉ (configure []
        ⟨TriState.unresolved, TriState.present "u", TriState.present "p"⟩
        (fun _ => "") (fun _ _ _ => Except.ok (0 : Nat))).diagnostics ∧
    missingUsernameDiag ∉ (configure []
        ⟨TriState.unresolved, TriState.present "u", TriState.present "p"⟩
        (fun _ => "") (fun _ _ _ => Except.ok (0 : Nat))).diagnostics ∧
    missingPasswordDiag ∉ (configure []
        ⟨TriState.unresolved, TriState.present "u", TriState.present "p"⟩
        (fun _ => "") (fun _ _ _ => Except.ok (0 : Nat))).diagnostics ∧
    (configure []
        ⟨TriState.unresolved, TriState.present "u", TriState.present "p"⟩
        (fun _ => "") (fun _ _ _ => Except.ok (0 : Nat))).dataSourceData = none ∧
    (configure []
        ⟨TriState.unresolved, TriState.present "u", TriState.present "p"⟩
        (fun _ => "") (fun _ _ _ => Except.ok (0 : Nat))).resourceData = none ∧
    configure []
        ⟨TriState.unresolved, TriState.present "u", TriState.present "p"⟩
        (fun _ => "x") (fun _ _ _ => Except.error "e") =
      configure []
        ⟨TriState.unresolved, TriState.present "u", TriState.present "p"⟩
        (fun _ => "") (fun _ _ _ => Except.ok (0 : Nat)) :=
  configure_phase1_gate []
    ⟨TriState.unresolved, TriState.present "u", TriState.present "p"⟩
    (fun _ => "") (fun _ => "x")
    (fun _ _ _ => Except.ok (0 : Nat)) (fun _ _ _ => Except.error "e")
    rfl rfl

/-- Claim C6: Phase 1 never rejects absent fields. With an error-free
configuration read, an absent field contributes no unknown-value
diagnostic, and when no field is unknown the pipeline proceeds to the
Phase 2 merge against the environment. -/
theorem configure_accepts_absent {C : Type} (getDiags : List Diagnostic)
    (config : snaProviderModel) (env : String → String)
    (newClient : String → String → String → Except String C)
    (hgd : hasError getDiags = false) :
    (config.host = TriState.absent →
      unknownHostDiag ∉ (configure getDiags config env newClient).diagnostics) ∧
    (config.username = TriState.absent →
      unknownUsernameDiag ∉
        (configure getDiags config env newClient).diagnostics) ∧
    (config.password = TriState.absent →
      unknownPasswordDiag ∉
        (configure getDiags config env newClient).diagnostics) ∧
    (config.host.isUnknown = false → config.username.isUnknown = false →
      config.password.isUnknown = false →
      configure getDiags config env newClient =
        configureResolved getDiags
          (mergeField config.host (env "SNA_HOST"))
          (mergeField config.username (env "SNA_USERNAME"))
          (mergeField config.password (env "SNA_PASSWORD"))
          newClient) := by
  refine ⟨?_, ?_, ?_, ?_⟩
  · intro habs hmem
    rcases configure_diagnostics_subset _ _ _ _ _ hmem with h1 | h1 | h1 | ⟨e, h1⟩
    · exact not_mem_of_hasError_eq_false hgd rfl h1
    · have h2 := unknownHostDiag_mem_iff.mp h1
      rw [habs] at h2
      exact absurd h2 (by decide)
    · rcases mem_missingValueDiags h1 with h2 | h2 | h2 <;>
        exact absurd h2 (by decide)
    · have h2 := congrArg Diagnostic.path h1
      simp [unknownHostDiag, clientCreationDiag] at h2
  · intro habs hmem
    rcases configure_diagnostics_subset _ _ _ _ _ hmem with h1 | h1 | h1 | ⟨e, h1⟩
    · exact not_mem_of_hasError_eq_false hgd rfl h1
    · have h2 := unknownUsernameDiag_mem_iff.mp h1
      rw [habs] at h2
      exact absurd h2 (by decide)
    · rcases mem_missingValueDiags h1 with h2 | h2 | h2 <;>
        exact absurd h2 (by decide)
    · have h2 := congrArg Diagnostic.path h1
      simp [unknownUsernameDiag, clientCreationDiag] at h2
  · intro habs hmem
    rcases configure_diagnostics_subset _ _ _ _ _ hmem with h1 | h1 | h1 | ⟨e, h1⟩
    · exact not_mem_of_hasError_eq_false hgd rfl h1
    · have h2 := unknownPasswordDiag_mem_iff.mp h1
      rw [habs] at h2
      exact absurd h2 (by decide)
    · rcases mem_missingValueDiags h1 with h2 | h2 | h2 <;>
        exact absurd h2 (by decide)
    · have h2 := congrArg Diagnostic.path h1
      simp [unknownPasswordDiag, clientCreationDiag] at h2
  · intro hh hu hp
    exact configure_eq_resolved newClient hgd hh hu hp

/-- Witness for C6: all three fields absent, environment supplying all
three values. -/
theorem configure_accepts_absent_witness :
    ((⟨TriState.absent, TriState.absent, TriState.absent⟩ :
        snaProviderModel).host = TriState.absent →
      unknownHostDiag ∉ (configure []
        ⟨TriState.absent, TriState.absent, TriState.absent⟩
        (fun _ => "v") (fun _ _ _ => Except.ok (0 : Nat))).diagnostics) ∧
    ((⟨TriState.absent, TriState.absent, TriState.absent⟩ :
        snaProviderModel).username = TriState.absent →
      unknownUsernameDiag ∉ (configure []
        ⟨TriState.absent, TriState.absent, TriState.absent⟩
        (fun _ => "v") (fun _ _ _ => Except.ok (0 : Nat))).diagnostics) ∧
    ((⟨TriState.absent, TriState.absent, TriState.absent⟩ :
        snaProviderModel).password = TriState.absent →
      unknownPasswordDiag ∉ (configure []
        ⟨TriState.absent, TriState.absent, TriState.absent⟩
        (fun _ => "v") (fun _ _ _ => Except.ok (0 : Nat))).diagnostics) ∧
    ((⟨TriState.absent, TriState.absent, TriState.absent⟩ :
        snaProviderModel).host.isUnknown = false →
      (⟨TriState.absent, TriState.absent, TriState.absent⟩ :
        snaProviderModel).username.isUnknown = false →
      (⟨TriState.absent, TriState.absent, TriState.absent⟩ :
        snaProviderModel).password.isUnknown = false →
      configure [] ⟨TriState.absent, TriState.absent, TriState.absent⟩
          (fun _ => "v") (fun _ _ _ => Except.ok (0 : Nat)) =
        configureResolved []
          (mergeField TriState.absent "v") (mergeField TriState.absent "v")
          (mergeField TriState.absent "v")
          (fun _ _ _ => Except.ok (0 : Nat))) :=
  configure_accepts_absent []
    ⟨TriState.absent, TriState.absent, TriState.absent⟩
    (fun _ => "v") (fun _ _ _ => Except.ok (0 : Nat)) rfl

theorem configureResolved_missing_stop {C : Type} (diags : List Diagnostic)
    (h u p : String) (newClient : String → String → String → Except String C)
    (hd : hasError diags = false)
    (he : h = "" ∨ u = "" ∨ p = "") :
    configureResolved diags h u p newClient =
      ⟨diags ++ missingValueDiags h u p, none, none⟩ := by
  have hM : hasError (diags ++ missingValueDiags h u p) = true := by
    rw [hasError_append, hd, hasError_missingValueDiags]
    rcases he with he | he | he <;> simp [he]
  simp [configureResolved, hM]

theorem configure_missing_field_host {C : Type} {getDiags : List Diagnostic}
    {config : snaProviderModel} {env : String → String}
    (newClient : String → String → String → Except String C)
    (hgd : hasError getDiags = false)
    (hh : config.host.isUnknown = false)
    (hu : config.username.isUnknown = false)
    (hp : config.password.isUnknown = false)
    (hmh : mergeField config.host (env "SNA_HOST") = "") :
    missingHostDiag ∈ (configure getDiags config env newClient).diagnostics ∧
    (configure getDiags config env newClient).dataSourceData = none := by
  have hres := @configure_eq_resolved C getDiags config env newClient hgd hh hu hp
  have hstop := configureResolved_missing_stop getDiags
    (mergeField config.host (env "SNA_HOST"))
    (mergeField config.username (env "SNA_USERNAME"))
    (mergeField config.password (env "SNA_PASSWORD")) newClient hgd
    (Or.inl hmh)
  constructor
  · rw [hres, hstop]
    exact List.mem_append.mpr (Or.inr (by simp [missingValueDiags, hmh]))
  · rw [hres, hstop]

theorem configure_missing_field_username {C : Type} {getDiags : List Diagnostic}
    {config : snaProviderModel} {env : String → String}
    (newClient : String → String → String → Except String C)
    (hgd : hasError getDiags = false)
    (hh : config.host.isUnknown = false)
    (hu : config.username.isUnknown = false)
    (hp : config.password.isUnknown = false)
    (hmu : mergeField config.username (env "SNA_USERNAME") = "") :
    missingUsernameDiag ∈ (configure getDiags config env newClient).diagnostics ∧
    (configure getDiags config env newClient).dataSourceData = none := by
  have hres := @configure_eq_resolved C getDiags config env newClient hgd hh hu hp
  have hstop := configureResolved_missing_stop getDiags
    (mergeField config.host (env "SNA_HOST"))
    (mergeField config.username (env "SNA_USERNAME"))
    (mergeField config.password (env "SNA_PASSWORD")) newClient hgd
    (Or.inr (Or.inl hmu))
  constructor
  · rw [hres, hstop]
    exact List.mem_append.mpr (Or.inr (by simp [missingValueDiags, hmu]))
  · rw [hres, hstop]

theorem configure_missing_field_password {C : Type} {getDiags : List Diagnostic}
    {config : snaProviderModel} {env : String → String}
    (newClient : String → String → String → Except String C)
    (hgd : hasError getDiags = false)
    (hh : config.host.isUnknown = false)
    (hu : config.username.isUnknown = false)
    (hp : config.password.isUnknown = false)
    (hmp : mergeField config.password (env "SNA_PASSWORD") = "") :
    missingPasswordDiag ∈ (configure getDiags config env newClient).diagnostics ∧
    (configure getDiags config env newClient).dataSourceData = none := by
  have hres := @configure_eq_resolved C getDiags config env newClient hgd hh hu hp
  have hstop := configureResolved_missing_stop getDiags
    (mergeField config.host (env "SNA_HOST"))
    (mergeField config.username (env "SNA_USERNAME"))
    (mergeField config.password (env "SNA_PASSWORD")) newClient hgd
    (Or.inr (Or.inr hmp))
  constructor
  · rw [hres, hstop]
    exact List.mem_append.mpr (Or.inr (by simp [missingValueDiags, hmp]))
  · rw [hres, hstop]

/-- Claim C2: precedence merge. A `Present` value always wins over the
environment value; an `Absent` field takes the environment value; and an
`Absent` field whose environment variable is unset or empty makes
resolution fail with the Missing-Value Error for that field. -/
theorem configure_precedence {C : Type} (v e : String)
    (getDiags : List Diagnostic) (config : snaProviderModel)
    (env : String → String)
    (newClient : String → String → String → Except String C)
    (hgd : hasError getDiags = false)
    (hh : config.host.isUnknown = false)
    (hu : config.username.isUnknown = false)
    (hp : config.password.isUnknown = false) :
    mergeField (TriState.present v) e = v ∧
    mergeField TriState.absent e = e ∧
    (config.host = TriState.absent → env "SNA_HOST" = "" →
      missingHostDiag ∈ (configure getDiags config env newClient).diagnostics ∧
      (configure getDiags config env newClient).dataSourceData = none) ∧
    (config.username = TriState.absent → env "SNA_USERNAME" = "" →
      missingUsernameDiag ∈
        (configure getDiags config env newClient).diagnostics ∧
      (configure getDiags config env newClient).dataSourceData = none) ∧
    (config.password = TriState.absent → env "SNA_PASSWORD" = "" →
      missingPasswordDiag ∈
        (configure getDiags config env newClient).diagnostics ∧
      (configure getDiags config env newClient).dataSourceData = none) := by
  refine ⟨rfl, rfl, ?_, ?_, ?_⟩
  · intro habs henv
    exact configure_missing_field_host newClient hgd hh hu hp
      (by rw [habs, henv]; decide)
  · intro habs henv
    exact configure_missing_field_username newClient hgd hh hu hp
      (by rw [habs, henv]; decide)
  · intro habs henv
    exact configure_missing_field_password newClient hgd hh hu hp
      (by rw [habs, henv]; decide)

/-- Witness for C2: all fields absent, empty environment. -/
theorem configure_precedence_witness :
    mergeField (TriState.present "a") "b" = "a" ∧
    mergeField TriState.absent "b" = "b" ∧
    ((⟨TriState.absent, TriState.absent, TriState.absent⟩ :
        snaProviderModel).host = TriState.absent →
      (fun (_ : String) => "") "SNA_HOST" = "" →
      missingHostDiag ∈ (configure []
        ⟨TriState.absent, TriState.absent, TriState.absent⟩
        (fun _ => "") (fun _ _ _ => Except.ok (0 : Nat))).diagnostics ∧
      (configure [] ⟨TriState.absent, TriState.absent, TriState.absent⟩
        (fun _ => "") (fun _ _ _ => Except.ok (0 : Nat))).dataSourceData = none) ∧
    ((⟨TriState.absent, TriState.absent, TriState.absent⟩ :
        snaProviderModel).username = TriState.absent →
      (fun (_ : String) => "") "SNA_USERNAME" = "" →
      missingUsernameDiag ∈ (configure []
        ⟨TriState.absent, TriState.absent, TriState.absent⟩
        (fun _ => "") (fun _ _ _ => Except.ok (0 : Nat))).diagnostics ∧
      (configure [] ⟨TriState.absent, TriState.absent, TriState.absent⟩
        (fun _ => "") (fun _ _ _ => Except.ok (0 : Nat))).dataSourceData = none) ∧
    ((⟨TriState.absent, TriState.absent, TriState.absent⟩ :
        snaProviderModel).password = TriState.absent →
      (fun (_ : String) => "") "SNA_PASSWORD" = "" →
      missingPasswordDiag ∈ (configure []
        ⟨TriState.absent, TriState.absent, TriState.absent⟩
        (fun _ => "") (fun _ _ _ => Except.ok (0 : Nat))).diagnostics ∧
      (configure [] ⟨TriState.absent, TriState.absent, TriState.absent⟩
        (fun _ => "") (fun _ _ _ => Except.ok (0 : Nat))).dataSourceData = none) :=
  configure_precedence "a" "b" []
    ⟨TriState.absent, TriState.absent, TriState.absent⟩
    (fun _ => "") (fun _ _ _ => Except.ok (0 : Nat)) rfl rfl rfl rfl

/-- Counterexample to claim C3 as stated: with host explicitly
`Present("")` and `SNA_HOST = "b"`, the merge yields the empty string, not
the environment value `"b"`; the pipeline then fails with the
Missing-Value Error for host instead of resolving host to `"b"`. -/
theorem empty_override_counterexample :
    mergeField (TriState.present "") "b" = "" ∧
    mergeField (TriState.present "") "b" ≠ "b" ∧
    (configure []
        ⟨TriState.present "", TriState.present "u", TriState.present "p"⟩
        (fun _ => "b") (fun _ _ _ => Except.ok (0 : Nat))).diagnostics =
      [missingHostDiag] ∧
    (configure []
        ⟨TriState.present "", TriState.present "u", TriState.present "p"⟩
        (fun _ => "b") (fun _ _ _ => Except.ok (0 : Nat))).dataSourceData =
      none := by
  refine ⟨rfl, by decide, ?_, ?_⟩ <;> rfl

/-- Claim C3 (amended): an explicitly supplied empty string is NOT treated
as `Absent` for override purposes. `Present("")` overrides the environment
value like any other `Present` value, so the merged value is the empty
string; resolution then fails the completeness gate with the Missing-Value
Error for that field, and no client is produced — the non-empty
environment value is not used. -/
theorem configure_empty_override {C : Type} (e : String)
    (getDiags : List Diagnostic) (config : snaProviderModel)
    (env : String → String)
    (newClient : String → String → String → Except String C)
    (hgd : hasError getDiags = false)
    (hh : config.host.isUnknown = false)
    (hu : config.username.isUnknown = false)
    (hp : config.password.isUnknown = false) :
    mergeField (TriState.present "") e = "" ∧
    (config.host = TriState.present "" →
      missingHostDiag ∈ (configure getDiags config env newClient).diagnostics ∧
      (configure getDiags config env newClient).dataSourceData = none) ∧
    (config.username = TriState.present "" →
      missingUsernameDiag ∈
        (configure getDiags config env newClient).diagnostics ∧
      (configure getDiags config env newClient).dataSourceData = none) ∧
    (config.password = TriState.present "" →
      missingPasswordDiag ∈
        (configure getDiags config env newClient).diagnostics ∧
      (configure getDiags config env newClient).dataSourceData = none) := by
  refine ⟨rfl, ?_, ?_, ?_⟩
  · intro hpe
    exact configure_missing_field_host newClient hgd hh hu hp (by rw [hpe]; rfl)
  · intro hpe
    exact configure_missing_field_username newClient hgd hh hu hp (by rw [hpe]; rfl)
  · intro hpe
    exact configure_missing_field_password newClient hgd hh hu hp (by rw [hpe]; rfl)

/-- Witness for the amended C3: host `Present("")`, environment holding
`"b"` for every variable. -/
theorem configure_empty_override_witness :
    mergeField (TriState.present "") "b" = "" ∧
    ((⟨TriState.present "", TriState.present "u", TriState.present "p"⟩ :
        snaProviderModel).host = TriState.present "" →
      missingHostDiag ∈ (configure []
        ⟨TriState.present "", TriState.present "u", TriState.present "p"⟩
        (fun _ => "b") (fun _ _ _ => Except.ok (0 : Nat))).diagnostics ∧
      (configure []
        ⟨TriState.present "", TriState.present "u", TriState.present "p"⟩
        (fun _ => "b") (fun _ _ _ => Except.ok (0 : Nat))).dataSourceData =
        none) ∧
    ((⟨TriState.present "", TriState.present "u", TriState.present "p"⟩ :
        snaProviderModel).username = TriState.present "" →
      missingUsernameDiag ∈ (configure []
        ⟨TriState.present "", TriState.present "u", TriState.present "p"⟩
        (fun _ => "b") (fun _ _ _ => Except.ok (0 : Nat))).diagnostics ∧
      (configure []
        ⟨TriState.present "", TriState.present "u", TriState.present "p"⟩
        (fun _ => "b") (fun _ _ _ => Except.ok (0 : Nat))).dataSourceData =
        none) ∧
    ((⟨TriState.present "", TriState.present "u", TriState.present "p"⟩ :
        snaProviderModel).password = TriState.present "" →
      missingPasswordDiag ∈ (configure []
        ⟨TriState.present "", TriState.present "u", TriState.present "p"⟩
        (fun _ => "b") (fun _ _ _ => Except.ok (0 : Nat))).diagnostics ∧
      (configure []
        ⟨TriState.present "", TriState.present "u", TriState.present "p"⟩
        (fun _ => "b") (fun _ _ _ => Except.ok (0 : Nat))).dataSourceData =
        none) :=
  configure_empty_override "b" []
    ⟨TriState.present "", TriState.present "u", TriState.present "p"⟩
    (fun _ => "b") (fun _ _ _ => Except.ok (0 : Nat)) rfl rfl rfl rfl

/-- Claim C5: completeness gate. Past Phase 1, each empty merged value
contributes exactly one Missing-Value Error at its field path; when any
merged value is empty, `Configure` stops with no client and without
consulting the client factory. -/
theorem configure_completeness_gate {C : Type} (getDiags : List Diagnostic)
    (config : snaProviderModel) (env : String → String)
    (newClient newClient2 : String → String → String → Except String C)
    (hgd : hasError getDiags = false)
    (hh : config.host.isUnknown = false)
    (hu : config.username.isUnknown = false)
    (hp : config.password.isUnknown = false)
    (he : mergeField config.host (env "SNA_HOST") = "" ∨
      mergeField config.username (env "SNA_USERNAME") = "" ∨
      mergeField config.password (env "SNA_PASSWORD") = "") :
    (configure getDiags config env newClient).diagnostics =
      getDiags ++ missingValueDiags
        (mergeField config.host (env "SNA_HOST"))
        (mergeField config.username (env "SNA_USERNAME"))
        (mergeField config.password (env "SNA_PASSWORD")) ∧
    (configure getDiags config env newClient).dataSourceData = none ∧
    (configure getDiags config env newClient).resourceData = none ∧
    configure getDiags config env newClient2 =
      configure getDiags config env newClient := by
  have hstop : ∀ fA : String → String → String → Except String C,
      configure getDiags config env fA =
        ⟨getDiags ++ missingValueDiags
          (mergeField config.host (env "SNA_HOST"))
          (mergeField config.username (env "SNA_USERNAME"))
          (mergeField config.password (env "SNA_PASSWORD")), none, none⟩ := by
    intro fA
    rw [configure_eq_resolved fA hgd hh hu hp,
      configureResolved_missing_stop getDiags _ _ _ fA hgd he]
  exact ⟨by rw [hstop newClient], by rw [hstop newClient],
    by rw [hstop newClient], by rw [hstop newClient2, hstop newClient]⟩

/-- Witness for C5 at Scenario B of the spec: all three fields absent and
an empty environment give exactly the three Missing-Value Errors and no
client. -/
theorem configure_completeness_gate_witness :
    (configure [] ⟨TriState.absent, TriState.absent, TriState.absent⟩
        (fun _ => "") (fun _ _ _ => Except.ok (0 : Nat))).diagnostics =
      [] ++ [missingHostDiag, missingUsernameDiag, missingPasswordDiag] ∧
    (configure [] ⟨TriState.absent, TriState.absent, TriState.absent⟩
        (fun _ => "") (fun _ _ _ => Except.ok (0 : Nat))).dataSourceData =
      none ∧
    (configure [] ⟨TriState.absent, TriState.absent, TriState.absent⟩
        (fun _ => "") (fun _ _ _ => Except.ok (0 : Nat))).resourceData = none ∧
    configure [] ⟨TriState.absent, TriState.absent, TriState.absent⟩
        (fun _ => "") (fun _ _ _ => Except.error "e") =
      configure [] ⟨TriState.absent, TriState.absent, TriState.absent⟩
        (fun _ => "") (fun _ _ _ => Except.ok (0 : Nat)) :=
  configure_completeness_gate []
    ⟨TriState.absent, TriState.absent, TriState.absent⟩
    (fun _ => "") (fun _ _ _ => Except.ok (0 : Nat))
    (fun _ _ _ => Except.error "e") rfl rfl rfl rfl (Or.inl rfl)

/-- Claim C7: construction failure. When every gate passes and the client
factory rejects the resolved values with error `e`, `Configure` appends
exactly one Error diagnostic — fixed summary, detail carrying the
underlying error text — exposes no client in either slot, and its result
depends on the factory only through that single application at the
resolved triple. -/
theorem configure_construction_failure {C : Type} (e : String)
    (getDiags : List Diagnostic) (config : snaProviderModel)
    (env : String → String)
    (newClient newClient2 : String → String → String → Except String C)
    (hgd : hasError getDiags = false)
    (hh : config.host.isUnknown = false)
    (hu : config.username.isUnknown = false)
    (hp : config.password.isUnknown = false)
    (hmh : mergeField config.host (env "SNA_HOST") ≠ "")
    (hmu : mergeField config.username (env "SNA_USERNAME") ≠ "")
    (hmp : mergeField config.password (env "SNA_PASSWORD") ≠ "")
    (herr : newClient (mergeField config.host (env "SNA_HOST"))
      (mergeField config.username (env "SNA_USERNAME"))
      (mergeField config.password (env "SNA_PASSWORD")) = Except.error e)
    (hagree : newClient2 (mergeField config.host (env "SNA_HOST"))
      (mergeField config.username (env "SNA_USERNAME"))
      (mergeField config.password (env "SNA_PASSWORD")) =
      newClient (mergeField config.host (env "SNA_HOST"))
        (mergeField config.username (env "SNA_USERNAME"))
        (mergeField config.password (env "SNA_PASSWORD"))) :
    (configure getDiags config env newClient).diagnostics =
      getDiags ++ [clientCreationDiag e] ∧
    (clientCreationDiag e).severity = Severity.error ∧
    (clientCreationDiag e).summary =
      "Unable to Create Secure Network Analytics API Client" ∧
    (clientCreationDiag e).detail =
      "An unexpected error occurred when creating the Secure Network Analytics API client. If the error is not clear, please contact the provider developers.\n\nSecure Network Analytics Client Error: " ++ e ∧
    (configure getDiags config env newClient).dataSourceData = none ∧
    (configure getDiags config env newClient).resourceData = none ∧
    configure getDiags config env newClient2 =
      configure getDiags config env newClient := by
  have hM : missingValueDiags (mergeField config.host (env "SNA_HOST"))
      (mergeField config.username (env "SNA_USERNAME"))
      (mergeField config.password (env "SNA_PASSWORD")) = [] := by
    simp [missingValueDiags, hmh, hmu, hmp]
  have hrun : ∀ fA : String → String → String → Except String C,
      fA (mergeField config.host (env "SNA_HOST"))
        (mergeField config.username (env "SNA_USERNAME"))
        (mergeField config.password (env "SNA_PASSWORD")) =
        Except.error e →
      configure getDiags config env fA =
        ⟨getDiags ++ [clientCreationDiag e], none, none⟩ := by
    intro fA hfA
    rw [@configure_eq_resolved C getDiags config env fA hgd hh hu hp]
    simp [configureResolved, hM, hgd, hfA]
  refine ⟨?_, rfl, rfl, rfl, ?_, ?_, ?_⟩
  · rw [hrun newClient herr]
  · rw [hrun newClient herr]
  · rw [hrun newClient herr]
  · rw [hrun newClient2 (hagree.trans herr), hrun newClient herr]

/-- Witness for C7: all fields present, a factory rejecting the triple,
and a second factory agreeing with it at the resolved triple only. -/
theorem configure_construction_failure_witness :
    (configure []
        ⟨TriState.present "h", TriState.present "u", TriState.present "p"⟩
        (fun _ => "") (fun _ _ _ => (Except.error "boom" :
          Except String Nat))).diagnostics =
      [] ++ [clientCreationDiag "boom"] ∧
    (clientCreationDiag "boom").severity = Severity.error ∧
    (clientCreationDiag "boom").summary =
      "Unable to Create Secure Network Analytics API Client" ∧
    (clientCreationDiag "boom").detail =
      "An unexpected error occurred when creating the Secure Network Analytics API client. If the error is not clear, please contact the provider developers.\n\nSecure Network Analytics Client Error: " ++ "boom" ∧
    (configure []
        ⟨TriState.present "h", TriState.present "u", TriState.present "p"⟩
        (fun _ => "") (fun _ _ _ => (Except.error "boom" :
          Except String Nat))).dataSourceData = none ∧
    (configure []
        ⟨TriState.present "h", TriState.present "u", TriState.present "p"⟩
        (fun _ => "") (fun _ _ _ => (Except.error "boom" :
          Except String Nat))).resourceData = none ∧
    configure []
        ⟨TriState.present "h", TriState.present "u", TriState.present "p"⟩
        (fun _ => "")
        (fun a _ _ => if a = "h" then Except.error "boom" else Except.ok 0) =
      configure []
        ⟨TriState.present "h", TriState.present "u", TriState.present "p"⟩
        (fun _ => "") (fun _ _ _ => (Except.error "boom" :
          Except String Nat)) :=
  configure_construction_failure "boom" []
    ⟨TriState.present "h", TriState.present "u", TriState.present "p"⟩
    (fun _ => "") (fun _ _ _ => Except.error "boom")
    (fun a _ _ => if a = "h" then Except.error "boom" else Except.ok 0)
    rfl rfl rfl rfl (by decide) (by decide) (by decide) rfl rfl

/-- Claim C8: determinism. The outcome of resolution depends on the
environment only through the snapshot of `SNA_HOST`, `SNA_USERNAME` and
`SNA_PASSWORD`; two runs whose inputs agree on these (and on the explicit
fields, initial diagnostics, and factory) produce identical responses —
same diagnostics in the same order, same client slots. -/
theorem configure_deterministic {C : Type} (getDiags : List Diagnostic)
    (config : snaProviderModel) (env1 env2 : String → String)
    (newClient : String → String → String → Except String C)
    (h1 : env1 "SNA_HOST" = env2 "SNA_HOST")
    (h2 : env1 "SNA_USERNAME" = env2 "SNA_USERNAME")
    (h3 : env1 "SNA_PASSWORD" = env2 "SNA_PASSWORD") :
    configure getDiags config env1 newClient =
      configure getDiags config env2 newClient := by
  simp only [configure, h1, h2, h3]

/-- Witness for C8: two environment functions that agree on the three
`SNA_*` variables but differ elsewhere. -/
theorem configure_deterministic_witness :
    configure [] ⟨TriState.absent, TriState.absent, TriState.absent⟩
        (fun _ => "v") (fun _ _ _ => Except.ok (0 : Nat)) =
      configure [] ⟨TriState.absent, TriState.absent, TriState.absent⟩
        (fun k => if k = "OTHER" then "z" else "v")
        (fun _ _ _ => Except.ok (0 : Nat)) :=
  configure_deterministic []
    ⟨TriState.absent, TriState.absent, TriState.absent⟩
    (fun _ => "v") (fun k => if k = "OTHER" then "z" else "v")
    (fun _ _ _ => Except.ok (0 : Nat)) (by decide) (by decide) (by decide)

theorem severity_of_mem_unknownValueDiags {config : snaProviderModel}
    {d : Diagnostic} (hd : d ∈ unknownValueDiags config) :
    d.severity = Severity.error := by
  rcases mem_unknownValueDiags hd with h | h | h <;> subst h <;> rfl

theorem severity_of_mem_missingValueDiags {h u p : String} {d : Diagnostic}
    (hd : d ∈ missingValueDiags h u p) : d.severity = Severity.error := by
  rcases mem_missingValueDiags hd with h1 | h1 | h1 <;> subst h1 <;> rfl

theorem eq_nil_of_all_error {l : List Diagnostic}
    (hall : ∀ d ∈ l, d.severity = Severity.error)
    (hf : hasError l = false) : l = [] := by
  cases l with
  | nil => rfl
  | cons d tl =>
    exact absurd (List.mem_cons_self d tl)
      (not_mem_of_hasError_eq_false hf (hall d (List.mem_cons_self d tl)))

theorem ne_nil_of_hasError {l : List Diagnostic}
    (ht : hasError l = true) : l ≠ [] := by
  intro hn
  rw [hn] at ht
  exact Bool.noConfusion ht

theorem configureResolved_appends_only_errors {C : Type}
    (diags : List Diagnostic) (h u p : String)
    (newClient : String → String → String → Except String C)
    (hd : hasError diags = false) :
    ∃ appended,
      (configureResolved diags h u p newClient).diagnostics =
        diags ++ appended ∧
      (∀ d ∈ appended, d.severity = Severity.error) ∧
      (hasError (configureResolved diags h u p newClient).diagnostics =
        true ↔ appended ≠ []) := by
  cases hm : hasError (diags ++ missingValueDiags h u p) with
  | true =>
    have hdd : (configureResolved diags h u p newClient).diagnostics =
        diags ++ missingValueDiags h u p := by
      simp [configureResolved, hm]
    refine ⟨missingValueDiags h u p, hdd, ?_, ?_⟩
    · intro d hmem
      exact severity_of_mem_missingValueDiags hmem
    · rw [hdd]
      have hMt : hasError (missingValueDiags h u p) = true := by
        rw [hasError_append, hd] at hm
        simpa using hm
      exact iff_of_true hm (ne_nil_of_hasError hMt)
  | false =>
    cases hc : newClient h u p with
    | error e =>
      have hdd : (configureResolved diags h u p newClient).diagnostics =
          diags ++ (missingValueDiags h u p ++ [clientCreationDiag e]) := by
        simp [configureResolved, hm, hc]
      refine ⟨missingValueDiags h u p ++ [clientCreationDiag e], hdd, ?_, ?_⟩
      · intro d hmem
        rcases List.mem_append.mp hmem with h1 | h1
        · exact severity_of_mem_missingValueDiags h1
        · rw [List.mem_singleton.mp h1]
          rfl
      · rw [hdd]
        refine iff_of_true ?_ (by simp)
        rw [hasError_append, hd, hasError_append,
          hasError_singleton_error (d := clientCreationDiag e) rfl]
        simp
    | ok c =>
      have hM : missingValueDiags h u p = [] := by
        refine eq_nil_of_all_error
          (fun d hmem => severity_of_mem_missingValueDiags hmem) ?_
        rw [hasError_append, hd] at hm
        simpa using hm
      have hdd : (configureResolved diags h u p newClient).diagnostics =
          diags ++ missingValueDiags h u p := by
        simp [configureResolved, hm, hc]
      refine ⟨missingValueDiags h u p, hdd, ?_, ?_⟩
      · intro d hmem
        exact severity_of_mem_missingValueDiags hmem
      · rw [hdd, hM]
        refine iff_of_false ?_ (by simp)
        rw [List.append_nil, hd]
        exact Bool.noConfusion

/-- Claim C10: beyond the diagnostics forwarded from the configuration
read, every diagnostic `Configure` appends has severity Error — never
Warning — so, given an error-free read, the `HasError` gate fires exactly
when the pipeline appended any diagnostic at all. -/
theorem configure_appends_only_errors {C : Type} (getDiags : List Diagnostic)
    (config : snaProviderModel) (env : String → String)
    (newClient : String → String → String → Except String C)
    (hgd : hasError getDiags = false) :
    ∃ appended,
      (configure getDiags config env newClient).diagnostics =
        getDiags ++ appended ∧
      (∀ d ∈ appended, d.severity = Severity.error) ∧
      (hasError (configure getDiags config env newClient).diagnostics =
        true ↔ appended ≠ []) := by
  cases hunk : hasError (getDiags ++ unknownValueDiags config) with
  | true =>
    have hdd : (configure getDiags config env newClient).diagnostics =
        getDiags ++ unknownValueDiags config := by
      simp [configure, hgd, hunk]
    refine ⟨unknownValueDiags config, hdd, ?_, ?_⟩
    · intro d hmem
      exact severity_of_mem_unknownValueDiags hmem
    · rw [hdd]
      have hUt : hasError (unknownValueDiags config) = true := by
        rw [hasError_append, hgd] at hunk
        simpa using hunk
      exact iff_of_true hunk (ne_nil_of_hasError hUt)
  | false =>
    have hUnil : unknownValueDiags config = [] := by
      refine eq_nil_of_all_error
        (fun d hmem => severity_of_mem_unknownValueDiags hmem) ?_
      rw [hasError_append, hgd] at hunk
      simpa using hunk
    obtain ⟨app, ha, hs, hiff⟩ := configureResolved_appends_only_errors
      (getDiags ++ unknownValueDiags config)
      (mergeField config.host (env "SNA_HOST"))
      (mergeField config.username (env "SNA_USERNAME"))
      (mergeField config.password (env "SNA_PASSWORD")) newClient hunk
    refine ⟨app, ?_, hs, ?_⟩
    · rw [configure_eq_resolved_append newClient hgd hunk, ha, hUnil,
        List.append_nil]
    · rw [configure_eq_resolved_append newClient hgd hunk]
      exact hiff

/-- Witness for C10: an error-free (empty) configuration read with all
fields absent and an empty environment. -/
theorem configure_appends_only_errors_witness :
    ∃ appended,
      (configure [] ⟨TriState.absent, TriState.absent, TriState.absent⟩
          (fun _ => "") (fun _ _ _ => Except.ok (0 : Nat))).diagnostics =
        [] ++ appended ∧
      (∀ d ∈ appended, d.severity = Severity.error) ∧
      (hasError (configure []
          ⟨TriState.absent, TriState.absent, TriState.absent⟩
          (fun _ => "") (fun _ _ _ => Except.ok (0 : Nat))).diagnostics =
        true ↔ appended ≠ []) :=
  configure_appends_only_errors []
    ⟨TriState.absent, TriState.absent, TriState.absent⟩
    (fun _ => "") (fun _ _ _ => Except.ok (0 : Nat)) rfl

end SnaProvider
